import Mathlib

/-!
Verification of the buddy-reward referral-tracking application.

The definitions below are a shallow embedding of the TypeScript client
(the session/identity adapter in src/hooks/useAuth.tsx, the referrer
dashboard, the admin panel, the reset-password view) and of the SQL
row-level-security policies of the backing store.  Browser state
(location, local storage) is passed explicitly; provider requests are
recorded as an explicit call trace; toast notifications are recorded as
a list.
-/

namespace BuddyReward

/-! ## Sessions, local storage, URL parameters -/

/-- An auth-provider session as the client observes it: the two tokens
plus the id of the signed-in user. -/
structure Session where
  access_token : String
  refresh_token : String
  userId : String
deriving DecidableEq, Repr

/-- Browser local storage: a key-value association list. -/
abbrev LocalStorage := List (String × String)

def LocalStorage.getItem (ls : LocalStorage) (k : String) : Option String :=
  (ls.find? (fun p => p.1 == k)).map (fun p => p.2)

def LocalStorage.setItem (ls : LocalStorage) (k v : String) : LocalStorage :=
  (k, v) :: ls.filter (fun p => p.1 != k)

def LocalStorage.removeItem (ls : LocalStorage) (k : String) : LocalStorage :=
  ls.filter (fun p => p.1 != k)

/-- The three query parameters the auth code inspects.  A value of
`none` means the parameter is absent from the URL; `some ""` means it
is present with an empty value. -/
structure UrlParams where
  type : Option String
  access_token : Option String
  refresh_token : Option String
deriving DecidableEq, Repr

/-- JavaScript truthiness of `urlParams.get(k)`: the result is truthy
exactly when the parameter is present with a non-empty value. -/
def truthyStr : Option String → Bool
  | none => false
  | some s => s != ""

/-- The recovery-flow test of useAuth.tsx lines 28-31:
`urlParams.get('type') === 'recovery' || urlParams.get('access_token')
|| urlParams.get('refresh_token')`, used for its truthiness. -/
def isRecoveryFlow (p : UrlParams) : Bool :=
  (p.type == some "recovery") || truthyStr p.access_token || truthyStr p.refresh_token

/-- Modelled from the spec: the URL "carries recovery indicators
(type=recovery, or an access_token or refresh_token query parameter)".
The spec's wording asks for the presence of the parameter, so this
refinement predicate tests presence, not truthiness. -/
def specCarriesRecoveryIndicators (p : UrlParams) : Bool :=
  (p.type == some "recovery") || p.access_token.isSome || p.refresh_token.isSome

/-- Serialization of a session for the recovery_session storage slot
(standing in for JSON.stringify in useAuth.tsx line 40). -/
def serializeSession (s : Session) : String :=
  s.access_token ++ ";" ++ s.refresh_token ++ ";" ++ s.userId

/-- JSON.stringify of a possibly null session. -/
def serializeOptSession : Option Session → String
  | none => "null"
  | some s => serializeSession s

/-- Split a character list at every semicolon. -/
def splitSemis : List Char → List (List Char)
  | [] => [[]]
  | c :: cs =>
      if c = ';' then [] :: splitSemis cs
      else
        match splitSemis cs with
        | [] => [[c]]
        | p :: ps => (c :: p) :: ps

/-- Parsing the stored recovery-session string (standing in for
JSON.parse in useAuth.tsx line 203); returns none on malformed input,
matching the try/catch that leaves recoverySession null. -/
def parseSession (str : String) : Option Session :=
  match splitSemis str.data with
  | [a, r, u] => some ⟨⟨a⟩, ⟨r⟩, ⟨u⟩⟩
  | _ => none

/-! ## The session/identity adapter state and the auth-change handler -/

/-- The adapter's React state: user, session, userRole, loading. -/
structure AuthState where
  user : Option String
  session : Option Session
  userRole : Option String
  loading : Bool
deriving DecidableEq, Repr

/-- Browser globals the adapter touches: local storage and location
(search string and current href). -/
structure Browser where
  localStorage : LocalStorage
  search : String
  href : String
deriving DecidableEq, Repr

/-- Requests issued to the auth provider, in order. -/
inductive ProviderCall where
  | signUpCall (email password name : String)
  | signInCall (email password : String)
  | signOutCall
  | resetPasswordCall (email : String)
  | setSessionCall (access refresh : String)
  | updateUserCall (password : String)
deriving DecidableEq, Repr

/-- Auth state-change events delivered by the provider. -/
inductive AuthEvent where
  | SIGNED_IN
  | SIGNED_OUT
  | PASSWORD_RECOVERY
  | TOKEN_REFRESHED
  | INITIAL_SESSION
deriving DecidableEq, Repr

/-- The role lookup of useAuth.tsx lines 55-61: select role from
user_roles where user_id = id, with .single(); zero or several rows
make .single() report an error, leaving roleData null and the stored
role null. -/
def lookupRole (roles : List (String × String)) (uid : String) : Option String :=
  match roles.filter (fun p => p.1 == uid) with
  | [pr] => some pr.2
  | _ => none

/-- Result of one delivery of the onAuthStateChange listener: the new
adapter state, the new browser state, and the provider calls issued. -/
structure AuthChangeResult where
  state : AuthState
  browser : Browser
  calls : List ProviderCall
deriving DecidableEq, Repr

/-- The onAuthStateChange listener of useAuth.tsx lines 34-73.  When
the page URL passes the recovery test and the event is SIGNED_IN, the
delivered session is stringified into the recovery_session slot, the
provider signOut is issued, the location is set to /reset-password
plus the current search string, and the listener returns before any
state update.  Otherwise session and user are stored, and the role is
fetched exactly when a session is present outside a recovery flow. -/
def handleAuthChange (p : UrlParams) (roles : List (String × String))
    (event : AuthEvent) (sess : Option Session)
    (st : AuthState) (br : Browser) : AuthChangeResult :=
  if isRecoveryFlow p && event == AuthEvent.SIGNED_IN then
    { state := st
      browser := { br with
        localStorage := br.localStorage.setItem "recovery_session" (serializeOptSession sess)
        href := "/reset-password" ++ br.search }
      calls := [ProviderCall.signOutCall] }
  else
    { state :=
        { user := sess.map Session.userId
          session := sess
          userRole :=
            match sess with
            | some s => if isRecoveryFlow p then none else lookupRole roles s.userId
            | none => none
          loading := false }
      browser := br
      calls := [] }

/-! ## Local-storage helper lemmas -/

theorem LocalStorage.getItem_setItem (ls : LocalStorage) (k v : String) :
    (ls.setItem k v).getItem k = some v := by
  simp [LocalStorage.getItem, LocalStorage.setItem, List.find?]

theorem LocalStorage.getItem_removeItem (ls : LocalStorage) (k : String) :
    (ls.removeItem k).getItem k = none := by
  have h : (ls.filter (fun p => p.1 != k)).find? (fun p => p.1 == k) = none := by
    rw [List.find?_eq_none]
    intro x hx
    have hmem := List.of_mem_filter hx
    simp only [bne_iff_ne, ne_eq, decide_eq_true_eq] at hmem
    simp [hmem]
  simp [LocalStorage.getItem, LocalStorage.removeItem, h]

/-! ## Claim C1 -/

/-- Sample recovery URL parameters: type=recovery only. -/
def recoveryParams : UrlParams := ⟨some "recovery", none, none⟩

/-- Parameters of a URL carrying an access_token parameter with an
empty value, as in "?access_token=". -/
def emptyTokenParams : UrlParams := ⟨none, some "", none⟩

/-- A sample delivered session. -/
def sampleSession : Session := ⟨"tokA", "tokR", "u1"⟩

/-- The adapter state before any event. -/
def initialAuthState : AuthState := ⟨none, none, none, true⟩

/-- Claim C1, counterexample.  The claim quantifies over every URL that
carries recovery indicators, including a URL whose access_token
parameter is present but empty.  There the recovery test of the code is
falsy, so a SIGNED_IN event does establish the session in the adapter
state, writes nothing to the recovery_session slot, issues no signOut,
and leaves the location unchanged - the opposite of each conclusion of
the claim. -/
theorem c1_recovery_interception_counterexample :
    specCarriesRecoveryIndicators emptyTokenParams = true ∧
    (handleAuthChange emptyTokenParams [("u1", "referrer")] AuthEvent.SIGNED_IN
        (some sampleSession) initialAuthState ⟨[], "?access_token=", "/"⟩).state.session
      = some sampleSession ∧
    (handleAuthChange emptyTokenParams [("u1", "referrer")] AuthEvent.SIGNED_IN
        (some sampleSession) initialAuthState
        ⟨[], "?access_token=", "/"⟩).browser.localStorage.getItem "recovery_session" = none ∧
    (handleAuthChange emptyTokenParams [("u1", "referrer")] AuthEvent.SIGNED_IN
        (some sampleSession) initialAuthState ⟨[], "?access_token=", "/"⟩).calls = [] ∧
    (handleAuthChange emptyTokenParams [("u1", "referrer")] AuthEvent.SIGNED_IN
        (some sampleSession) initialAuthState ⟨[], "?access_token=", "/"⟩).browser.href = "/" := by
  refine ⟨rfl, rfl, rfl, rfl, rfl⟩

/-- Claim C1, amended: whenever the recovery test of the code holds -
type=recovery, or a NON-EMPTY access_token or refresh_token query
parameter - a SIGNED_IN event never establishes a session in the
adapter state: the listener leaves the state untouched, writes the
delivered session to the recovery_session slot, issues the provider
signOut, and redirects the browser to the reset-password view. -/
theorem c1_recovery_interception (p : UrlParams) (roles : List (String × String))
    (sess : Option Session) (st : AuthState) (br : Browser)
    (hrec : isRecoveryFlow p = true) :
    (handleAuthChange p roles AuthEvent.SIGNED_IN sess st br).state = st ∧
    (handleAuthChange p roles AuthEvent.SIGNED_IN sess st
        br).browser.localStorage.getItem "recovery_session"
      = some (serializeOptSession sess) ∧
    ProviderCall.signOutCall ∈ (handleAuthChange p roles AuthEvent.SIGNED_IN sess st br).calls ∧
    (handleAuthChange p roles AuthEvent.SIGNED_IN sess st br).browser.href
      = "/reset-password" ++ br.search := by
  simp [handleAuthChange, hrec, LocalStorage.getItem_setItem]

/-- Claim C1 witness: the amended theorem applied to a concrete
recovery URL, session and state. -/
theorem c1_recovery_interception_witness :
    isRecoveryFlow recoveryParams = true ∧
    ((handleAuthChange recoveryParams [] AuthEvent.SIGNED_IN (some sampleSession)
        initialAuthState ⟨[], "?type=recovery", "/"⟩).state = initialAuthState ∧
      (handleAuthChange recoveryParams [] AuthEvent.SIGNED_IN (some sampleSession)
          initialAuthState
          ⟨[], "?type=recovery", "/"⟩).browser.localStorage.getItem "recovery_session"
        = some (serializeOptSession (some sampleSession)) ∧
      ProviderCall.signOutCall ∈
        (handleAuthChange recoveryParams [] AuthEvent.SIGNED_IN (some sampleSession)
          initialAuthState ⟨[], "?type=recovery", "/"⟩).calls ∧
      (handleAuthChange recoveryParams [] AuthEvent.SIGNED_IN (some sampleSession)
          initialAuthState ⟨[], "?type=recovery", "/"⟩).browser.href
        = "/reset-password" ++ "?type=recovery") :=
  ⟨by decide,
    c1_recovery_interception recoveryParams [] (some sampleSession) initialAuthState
      ⟨[], "?type=recovery", "/"⟩ (by decide)⟩

/-! ## Toasts and the remaining adapter operations -/

/-- A toast notification: title, description, and whether the
destructive variant was used. -/
structure Toast where
  title : String
  description : String
  destructive : Bool
deriving DecidableEq, Repr

/-- Result of an adapter operation that returns an error indicator:
the returned error, the toasts shown, and the provider calls issued. -/
structure OpResult where
  error : Option String
  toasts : List Toast
  calls : List ProviderCall
deriving DecidableEq, Repr

/-- updatePassword of useAuth.tsx lines 196-249.  The stored
recovery_session value is read and parsed; the session to use is the
parsed recovery session when present, otherwise the ambient session.
When that session has no truthy access token the function returns an
error at once, touching neither the provider nor the storage slot.
Otherwise the recovery session (when present) is applied via
setSession, updateUser is called - its outcome is the parameter
updateUserError - and the recovery_session slot is removed before the
outcome toast. -/
def updatePassword (password : String) (ambient : Option Session)
    (ls : LocalStorage) (updateUserError : Option String) : OpResult × LocalStorage :=
  let recoverySession := (ls.getItem "recovery_session").bind parseSession
  let sessionToUse :=
    match recoverySession with
    | some s => some s
    | none => ambient
  match sessionToUse with
  | none =>
      ({ error := some "No valid session found for password reset"
         toasts := [⟨"Password update failed", "No valid session found for password reset", true⟩]
         calls := [] }, ls)
  | some s =>
      if s.access_token == "" then
        ({ error := some "No valid session found for password reset"
           toasts := [⟨"Password update failed", "No valid session found for password reset", true⟩]
           calls := [] }, ls)
      else
        let setCalls :=
          match recoverySession with
          | some rs => [ProviderCall.setSessionCall rs.access_token rs.refresh_token]
          | none => []
        let ls1 := ls.removeItem "recovery_session"
        match updateUserError with
        | some e =>
            ({ error := some e
               toasts := [⟨"Password update failed", e, true⟩]
               calls := setCalls ++ [ProviderCall.updateUserCall password] }, ls1)
        | none =>
            ({ error := none
               toasts := [⟨"Password updated", "Your password has been successfully updated.", false⟩]
               calls := setCalls ++ [ProviderCall.updateUserCall password] }, ls1)

/-- The recovery session updatePassword reads: stored string, parsed. -/
def parsedRecoverySession (ls : LocalStorage) : Option Session :=
  (ls.getItem "recovery_session").bind parseSession

/-- The session updatePassword settles on: the parsed recovery session
when present, otherwise the ambient session. -/
def sessionToUse (ls : LocalStorage) (ambient : Option Session) : Option Session :=
  match parsedRecoverySession ls with
  | some s => some s
  | none => ambient

/-- Truthiness of `sessionToUse?.access_token`: a session with a
non-empty access token. -/
def sessionUsable : Option Session → Bool
  | none => false
  | some s => s.access_token != ""

/-! ## Claim C2 -/

/-- Claim C2, counterexample.  The claim says the recovery_session key
is removed after ANY invocation of updatePassword.  But when the stored
value fails to parse and there is no ambient session, updatePassword
returns its "No valid session found" error before the removal line:
the key is still present afterwards. -/
theorem c2_update_password_counterexample :
    ((updatePassword "newpw" none [("recovery_session", "garbage")] none).2).getItem
        "recovery_session" = some "garbage" ∧
    (updatePassword "newpw" none [("recovery_session", "garbage")] none).1.error
      = some "No valid session found for password reset" := by
  exact ⟨rfl, rfl⟩

/-- Claim C2, amended: whenever updatePassword finds a usable session -
the stored recovery session when it parses, otherwise the ambient
session, with a non-empty access token - the stored recovery session,
when present, is preferred over the ambient one and applied via
setSession before the update, and after the invocation, whether the
update succeeds or fails, the recovery_session key is removed.  An
invocation that finds no usable session returns an error without
touching the slot. -/
theorem c2_update_password_recovery (password : String) (ambient : Option Session)
    (ls : LocalStorage) (updateUserError : Option String)
    (husable : sessionUsable (sessionToUse ls ambient) = true) :
    ((updatePassword password ambient ls updateUserError).2).getItem "recovery_session" = none ∧
    (∀ rs, parsedRecoverySession ls = some rs →
      (updatePassword password ambient ls updateUserError).1.calls
        = [ProviderCall.setSessionCall rs.access_token rs.refresh_token,
           ProviderCall.updateUserCall password]) := by
  unfold updatePassword
  simp only [parsedRecoverySession, sessionToUse, sessionUsable] at *
  cases hrec : (ls.getItem "recovery_session").bind parseSession with
  | some rs =>
      simp only [hrec] at husable ⊢
      simp only [bne_iff_ne, ne_eq] at husable
      rw [if_neg (by simpa using husable)]
      cases updateUserError <;>
        simp [LocalStorage.getItem_removeItem]
  | none =>
      simp only [hrec] at husable ⊢
      cases ambient with
      | none => simp at husable
      | some s =>
          simp only at husable ⊢
          simp only [bne_iff_ne, ne_eq] at husable
          rw [if_neg (by simpa using husable)]
          cases updateUserError <;>
            simp [LocalStorage.getItem_removeItem]

/-- Claim C2 witness: the amended theorem applied to a stored recovery
session "a;r;u1" with no ambient session and a failing update. -/
theorem c2_update_password_recovery_witness :
    sessionUsable (sessionToUse [("recovery_session", "a;r;u1")] none) = true ∧
    (((updatePassword "npw" none [("recovery_session", "a;r;u1")] (some "boom")).2).getItem
        "recovery_session" = none ∧
      (∀ rs, parsedRecoverySession [("recovery_session", "a;r;u1")] = some rs →
        (updatePassword "npw" none [("recovery_session", "a;r;u1")] (some "boom")).1.calls
          = [ProviderCall.setSessionCall rs.access_token rs.refresh_token,
             ProviderCall.updateUserCall "npw"])) :=
  ⟨by decide,
    c2_update_password_recovery "npw" none [("recovery_session", "a;r;u1")] (some "boom")
      (by decide)⟩

/-! ## signUp, signIn, signOut, resetPassword -/

/-- The auth provider's response to a signUp request: either an error,
or data carrying a possibly null user and a possibly null session.
The provider reports errors and data exclusively. -/
inductive SignUpResponse where
  | failure (message : String)
  | success (user : Option String) (session : Option Session)
deriving DecidableEq, Repr

/-- The duplicate-account error message of useAuth.tsx line 134. -/
def duplicateAccountMessage : String :=
  "You already have an account with this email. Please sign in instead."

/-- signUp of useAuth.tsx lines 109-149: a provider error yields a
destructive toast and the error; a user with no session is the
duplicate-account heuristic and yields the custom error with a
destructive toast; any other outcome yields the check-your-email
toast and no error. -/
def signUp (email password name : String) (resp : SignUpResponse) : OpResult :=
  match resp with
  | SignUpResponse.failure msg =>
      { error := some msg
        toasts := [⟨"Sign up failed", msg, true⟩]
        calls := [ProviderCall.signUpCall email password name] }
  | SignUpResponse.success (some _) none =>
      { error := some duplicateAccountMessage
        toasts := [⟨"Account already exists", duplicateAccountMessage, true⟩]
        calls := [ProviderCall.signUpCall email password name] }
  | SignUpResponse.success _ _ =>
      { error := none
        toasts := [⟨"Check your email", "Please check your email for a confirmation link.", false⟩]
        calls := [ProviderCall.signUpCall email password name] }

/-- signIn of useAuth.tsx lines 151-166: a destructive toast on
failure, no toast on success, the provider error returned as is. -/
def signIn (email password : String) (providerError : Option String) : OpResult :=
  match providerError with
  | some e =>
      { error := some e
        toasts := [⟨"Sign in failed", e, true⟩]
        calls := [ProviderCall.signInCall email password] }
  | none =>
      { error := none
        toasts := []
        calls := [ProviderCall.signInCall email password] }

/-- Result of signOut, which returns no error indicator: the new
adapter state, the toasts shown, and the provider calls issued. -/
structure SignOutResult where
  state : AuthState
  toasts : List Toast
  calls : List ProviderCall
deriving DecidableEq, Repr

/-- signOut of useAuth.tsx lines 168-173: the provider signOut is
awaited and its outcome ignored, then user, session and userRole are
cleared; no toast is shown and nothing is returned. -/
def signOut (_providerError : Option String) (st : AuthState) : SignOutResult :=
  { state := { user := none, session := none, userRole := none, loading := st.loading }
    toasts := []
    calls := [ProviderCall.signOutCall] }

/-- resetPassword of useAuth.tsx lines 175-194: a destructive toast on
failure, a check-your-email toast on success, the provider error
returned as is. -/
def resetPassword (email : String) (providerError : Option String) : OpResult :=
  match providerError with
  | some e =>
      { error := some e
        toasts := [⟨"Reset failed", e, true⟩]
        calls := [ProviderCall.resetPasswordCall email] }
  | none =>
      { error := none
        toasts := [⟨"Check your email",
          "We\x27ve sent you a password reset link that expires in 15 minutes.", false⟩]
        calls := [ProviderCall.resetPasswordCall email] }

/-! ## Claim C3 -/

/-- Claim C3, confirmed: whenever the provider answers a signUp with a
user but no session - the duplicate-account heuristic - signUp returns
the specific account-already-exists error and shows a matching
destructive notification. -/
theorem c3_signup_duplicate (email password name u : String) :
    (signUp email password name (SignUpResponse.success (some u) none)).error
      = some duplicateAccountMessage ∧
    (signUp email password name (SignUpResponse.success (some u) none)).toasts
      = [⟨"Account already exists", duplicateAccountMessage, true⟩] := by
  exact ⟨rfl, rfl⟩

/-! ## Claim C4: the reset-password submit handler -/

/-- Outcome of handlePasswordReset: the error shown in the view, and
whether the update was attempted, succeeded, was followed by a signOut,
and scheduled a redirect (target and delay in milliseconds). -/
structure ResetOutcome where
  viewError : Option String
  updateAttempted : Bool
  isSuccess : Bool
  signedOut : Bool
  scheduledRedirect : Option (String × Nat)
deriving DecidableEq, Repr

/-- handlePasswordReset of the ResetPassword view: mismatching or
short passwords are rejected before any update; otherwise
updatePassword runs (its outcome is the parameter updateError); on
success the user is signed out and a redirect to /auth is scheduled
after 3000 ms; on failure the error message is shown, with a generic
fallback when the message is empty. -/
def handlePasswordReset (password confirmPassword : String)
    (updateError : Option String) : ResetOutcome :=
  if password != confirmPassword then
    { viewError := some "Passwords do not match"
      updateAttempted := false, isSuccess := false, signedOut := false
      scheduledRedirect := none }
  else if password.length < 6 then
    { viewError := some "Password must be at least 6 characters long"
      updateAttempted := false, isSuccess := false, signedOut := false
      scheduledRedirect := none }
  else
    match updateError with
    | none =>
        { viewError := none
          updateAttempted := true, isSuccess := true, signedOut := true
          scheduledRedirect := some ("/auth", 3000) }
    | some e =>
        { viewError := some (if e != "" then e else "Failed to update password")
          updateAttempted := true, isSuccess := false, signedOut := false
          scheduledRedirect := none }

/-- Claim C4, confirmed: on every successful updatePassword performed
from the reset-password view - matching passwords of length at least
six, update error none - handlePasswordReset signs the user out and
schedules a redirect to the sign-in route after the fixed 3000 ms
delay. -/
theorem c4_reset_success_signs_out (password confirmPassword : String)
    (hmatch : password = confirmPassword) (hlen : 6 ≤ password.length) :
    (handlePasswordReset password confirmPassword none).signedOut = true ∧
    (handlePasswordReset password confirmPassword none).scheduledRedirect
      = some ("/auth", 3000) := by
  subst hmatch
  rw [handlePasswordReset, if_neg (by simp), if_neg (by omega)]
  exact ⟨rfl, rfl⟩

/-- Claim C4 witness: the theorem applied to the concrete password
"hunter2" entered twice, with a successful update. -/
theorem c4_reset_success_signs_out_witness :
    "hunter2" = "hunter2" ∧ 6 ≤ "hunter2".length ∧
    ((handlePasswordReset "hunter2" "hunter2" none).signedOut = true ∧
      (handlePasswordReset "hunter2" "hunter2" none).scheduledRedirect = some ("/auth", 3000)) :=
  ⟨rfl, by decide, c4_reset_success_signs_out "hunter2" "hunter2" rfl (by decide)⟩

/-! ## Claim C10 -/

/-- Claim C10, confirmed: when signOut returns, the adapter state has
user, session and userRole all null, whatever the provider's sign-out
request reported. -/
theorem c10_signout_clears_state (providerError : Option String) (st : AuthState) :
    (signOut providerError st).state.user = none ∧
    (signOut providerError st).state.session = none ∧
    (signOut providerError st).state.userRole = none := by
  exact ⟨rfl, rfl, rfl⟩

/-! ## Claim C8 -/

/-- Claim C8, counterexample.  The claim says every adapter operation
surfaces its success or failure as a user-visible notification and
returns an error indicator.  signOut shows no notification at all (and
its result carries no error indicator): its toast list is empty on a
concrete invocation. -/
theorem c8_notifications_counterexample :
    (signOut none ⟨some "u1", some sampleSession, some "referrer", false⟩).toasts = [] ∧
    (signIn "a@b.c" "pw" none).toasts = [] := by
  exact ⟨rfl, rfl⟩

/-- Matches provider updateUser calls, for counting. -/
def isUpdateUserCall : ProviderCall → Bool
  | ProviderCall.updateUserCall _ => true
  | _ => false

/-- Claim C8, amended: signUp, resetPassword and updatePassword
surface every outcome, success or failure, as exactly one notification
and return the error indicator; signIn returns the error indicator and
notifies on failure but shows nothing on success; signOut shows no
notification and returns no error indicator, while still clearing the
local state; and each operation issues its provider request exactly
once per invocation - updatePassword issues the update exactly once
when it finds a usable session and not at all otherwise - so no
operation is retried automatically. -/
theorem c8_notifications_and_errors (email password name : String) (resp : SignUpResponse)
    (e1 e2 e3 e4 : Option String) (st : AuthState)
    (ambient : Option Session) (ls : LocalStorage) :
    (signUp email password name resp).toasts.length = 1 ∧
    (signUp email password name resp).calls = [ProviderCall.signUpCall email password name] ∧
    (signIn email password e1).error = e1 ∧
    ((signIn email password e1).toasts
      = match e1 with
        | some e => [⟨"Sign in failed", e, true⟩]
        | none => []) ∧
    (signIn email password e1).calls = [ProviderCall.signInCall email password] ∧
    (signOut e2 st).toasts = [] ∧
    (signOut e2 st).calls = [ProviderCall.signOutCall] ∧
    (resetPassword email e3).error = e3 ∧
    (resetPassword email e3).toasts.length = 1 ∧
    (resetPassword email e3).calls = [ProviderCall.resetPasswordCall email] ∧
    (updatePassword password ambient ls e4).1.toasts.length = 1 ∧
    ((updatePassword password ambient ls e4).1.calls.countP isUpdateUserCall
      = cond (sessionUsable (sessionToUse ls ambient)) 1 0) := by
  refine ⟨?_, ?_, ?_, ?_, ?_, rfl, rfl, ?_, ?_, ?_, ?_, ?_⟩
  · cases resp with
    | failure m => rfl
    | success u s => cases u <;> cases s <;> rfl
  · cases resp with
    | failure m => rfl
    | success u s => cases u <;> cases s <;> rfl
  · cases e1 <;> rfl
  · cases e1 <;> rfl
  · cases e1 <;> rfl
  · cases e3 <;> rfl
  · cases e3 <;> rfl
  · cases e3 <;> rfl
  · unfold updatePassword
    cases hrec : (ls.getItem "recovery_session").bind parseSession with
    | some rs =>
        by_cases hz : rs.access_token = ""
        · simp [hrec, hz]
        · cases e4 <;> simp [sessionUsable, sessionToUse, parsedRecoverySession, hrec, hz]
    | none =>
        cases ambient with
        | none => simp [sessionUsable, sessionToUse, parsedRecoverySession, hrec]
        | some s =>
            by_cases hz : s.access_token = ""
            · simp [hrec, hz, sessionUsable, sessionToUse, parsedRecoverySession]
            · cases e4 <;>
                simp [sessionUsable, sessionToUse, parsedRecoverySession, hrec, hz]
  · unfold updatePassword
    cases hrec : (ls.getItem "recovery_session").bind parseSession with
    | some rs =>
        by_cases hz : rs.access_token = ""
        · simp [hrec, hz, sessionUsable, sessionToUse, parsedRecoverySession, isUpdateUserCall]
        · cases e4 <;>
            simp [sessionUsable, sessionToUse, parsedRecoverySession, hrec, hz,
              isUpdateUserCall, List.countP_cons, List.countP_append,
              Bool.cond_eq_ite, bne_iff_ne]
    | none =>
        cases ambient with
        | none => simp [sessionUsable, sessionToUse, parsedRecoverySession, hrec, isUpdateUserCall]
        | some s =>
            by_cases hz : s.access_token = ""
            · simp [hrec, hz, sessionUsable, sessionToUse, parsedRecoverySession, isUpdateUserCall]
            · cases e4 <;>
                simp [sessionUsable, sessionToUse, parsedRecoverySession, hrec, hz,
                  isUpdateUserCall, List.countP_cons, List.countP_append,
                  Bool.cond_eq_ite, bne_iff_ne]

/-! ## The data model: roles, referrals, profiles -/

/-- The app_role enumeration of the schema. -/
inductive AppRole where
  | admin
  | referrer
deriving DecidableEq, Repr

/-- The referral_stage enumeration, after the migration that put
Referred Connection first. -/
inductive Stage where
  | referredConnection
  | clientSigned
  | siteInspectionDone
  | documentsVerified
  | solarInstalled
deriving DecidableEq, Repr

/-- The bonus_status enumeration. -/
inductive BonusStatus where
  | pending
  | paid
deriving DecidableEq, Repr

/-- A user_roles row. -/
structure RoleRow where
  user_id : String
  role : AppRole
deriving DecidableEq, Repr

/-- The has_role SQL function: exists a user_roles row with this user
and role. -/
def hasRole (roles : List RoleRow) (uid : String) (r : AppRole) : Bool :=
  roles.any (fun row => row.user_id == uid && row.role == r)

/-- A referrals row.  created_at is an abstract timestamp. -/
structure ReferralRow where
  id : String
  user_id : String
  client_name : String
  client_email : String
  client_phone : String
  client_address : String
  stage : Stage
  bonus_status : BonusStatus
  notes : String
  created_at : Nat
deriving DecidableEq, Repr

/-- A profiles row, after the payment-details migration. -/
structure ProfileRow where
  id : String
  user_id : String
  name : String
  payment_method : Option String
  payment_details : Option String
deriving DecidableEq, Repr

/-- The SELECT row-level policies on referrals: owners see their own
rows; admins see all rows. -/
def referralSelectAllowed (roles : List RoleRow) (caller : String) (row : ReferralRow) : Bool :=
  (caller == row.user_id) || hasRole roles caller AppRole.admin

/-- The rows of the referrals table visible to a caller under the
row-level policies. -/
def visibleReferrals (db : List ReferralRow) (roles : List RoleRow)
    (caller : String) : List ReferralRow :=
  db.filter (referralSelectAllowed roles caller)

/-- The INSERT row-level policies on referrals: owners may insert
their own rows; admins may insert rows for any user.  Returns the
grown table on success and none on a policy denial. -/
def insertReferral (db : List ReferralRow) (roles : List RoleRow) (caller : String)
    (row : ReferralRow) : Option (List ReferralRow) :=
  if (caller == row.user_id) || hasRole roles caller AppRole.admin then
    some (db ++ [row])
  else none

/-! ## order by created_at descending -/

/-- Insert a row into a list sorted by created_at descending, keeping
rows with equal timestamps in their existing order. -/
def insertByCreatedDesc (r : ReferralRow) : List ReferralRow → List ReferralRow
  | [] => [r]
  | x :: xs =>
      if x.created_at < r.created_at then r :: x :: xs
      else x :: insertByCreatedDesc r xs

/-- The order('created_at', descending) modifier of the store queries,
as an insertion sort. -/
def orderByCreatedDesc : List ReferralRow → List ReferralRow
  | [] => []
  | r :: rs => insertByCreatedDesc r (orderByCreatedDesc rs)

/-- Decidable check that a list is sorted by created_at descending. -/
def isSortedByCreatedDesc : List ReferralRow → Bool
  | [] => true
  | [_] => true
  | a :: b :: t => decide (b.created_at ≤ a.created_at) && isSortedByCreatedDesc (b :: t)

theorem mem_insertByCreatedDesc (a r : ReferralRow) (l : List ReferralRow) :
    a ∈ insertByCreatedDesc r l ↔ a = r ∨ a ∈ l := by
  induction l with
  | nil => simp [insertByCreatedDesc]
  | cons x xs ih =>
      by_cases h : x.created_at < r.created_at
      · simp [insertByCreatedDesc, h]
      · simp [insertByCreatedDesc, h, ih]
        tauto

theorem mem_orderByCreatedDesc (a : ReferralRow) (l : List ReferralRow) :
    a ∈ orderByCreatedDesc l ↔ a ∈ l := by
  induction l with
  | nil => simp [orderByCreatedDesc]
  | cons x xs ih => simp [orderByCreatedDesc, mem_insertByCreatedDesc, ih]

theorem sorted_insertByCreatedDesc (r : ReferralRow) :
    ∀ l : List ReferralRow, isSortedByCreatedDesc l = true →
      isSortedByCreatedDesc (insertByCreatedDesc r l) = true
  | [], _ => rfl
  | [x], _ => by
      by_cases h : x.created_at < r.created_at
      · simp [insertByCreatedDesc, h, isSortedByCreatedDesc]
        omega
      · simp [insertByCreatedDesc, h, isSortedByCreatedDesc]
        omega
  | x :: y :: t, hsort => by
      have hyx : y.created_at ≤ x.created_at := by
        have := hsort
        simp only [isSortedByCreatedDesc, Bool.and_eq_true, decide_eq_true_eq] at this
        exact this.1
      have htail : isSortedByCreatedDesc (y :: t) = true := by
        have := hsort
        simp only [isSortedByCreatedDesc, Bool.and_eq_true, decide_eq_true_eq] at this
        exact this.2
      by_cases hx : x.created_at < r.created_at
      · simp only [insertByCreatedDesc, if_pos hx, isSortedByCreatedDesc,
          Bool.and_eq_true, decide_eq_true_eq]
        exact ⟨by omega, by simpa [isSortedByCreatedDesc] using hsort⟩
      · simp only [insertByCreatedDesc, if_neg hx]
        by_cases hy : y.created_at < r.created_at
        · simp only [insertByCreatedDesc, if_pos hy, isSortedByCreatedDesc,
            Bool.and_eq_true, decide_eq_true_eq]
          refine ⟨by omega, by omega, ?_⟩
          simpa [isSortedByCreatedDesc, Bool.and_eq_true] using htail
        · have hrec := sorted_insertByCreatedDesc r (y :: t) htail
          simp only [insertByCreatedDesc, if_neg hy] at hrec
          simp only [insertByCreatedDesc, if_neg hy, isSortedByCreatedDesc,
            Bool.and_eq_true, decide_eq_true_eq]
          exact ⟨hyx, by simpa [isSortedByCreatedDesc] using hrec⟩

theorem sorted_orderByCreatedDesc (l : List ReferralRow) :
    isSortedByCreatedDesc (orderByCreatedDesc l) = true := by
  induction l with
  | nil => rfl
  | cons x xs ih => exact sorted_insertByCreatedDesc x (orderByCreatedDesc xs) ih

/-! ## The listing queries -/

/-- fetchReferrals of ReferrerDashboard.tsx lines 44-64: select from
referrals, narrowed by the row-level policies, filtered client-side on
user_id = caller id, ordered by created_at descending. -/
def fetchReferrals (db : List ReferralRow) (roles : List RoleRow)
    (caller : String) : List ReferralRow :=
  orderByCreatedDesc ((visibleReferrals db roles caller).filter (fun r => r.user_id == caller))

/-- The AdminPanel fetchData referrals query: select from referrals,
narrowed only by the row-level policies, ordered by created_at
descending. -/
def fetchAllReferrals (db : List ReferralRow) (roles : List RoleRow)
    (caller : String) : List ReferralRow :=
  orderByCreatedDesc (visibleReferrals db roles caller)

/-! ## Claim C5 -/

/-- Claim C5, confirmed: a referrer's listing returns only rows whose
user_id is the caller's id, ordered by created_at descending; and an
admin's query, governed by the row-level policies alone, returns all
rows (again ordered by created_at descending). -/
theorem c5_referral_listing_scoped (db : List ReferralRow) (roles : List RoleRow)
    (caller : String) :
    (∀ r ∈ fetchReferrals db roles caller, r.user_id = caller) ∧
    isSortedByCreatedDesc (fetchReferrals db roles caller) = true ∧
    (hasRole roles caller AppRole.admin = true →
      (∀ r, r ∈ fetchAllReferrals db roles caller ↔ r ∈ db) ∧
      isSortedByCreatedDesc (fetchAllReferrals db roles caller) = true) := by
  refine ⟨?_, sorted_orderByCreatedDesc _, fun hadmin => ⟨?_, sorted_orderByCreatedDesc _⟩⟩
  · intro r hr
    rw [fetchReferrals, mem_orderByCreatedDesc] at hr
    have := List.of_mem_filter hr
    exact eq_of_beq this
  · intro r
    rw [fetchAllReferrals, mem_orderByCreatedDesc, visibleReferrals]
    constructor
    · exact fun hr => List.mem_of_mem_filter hr
    · intro hr
      exact List.mem_filter.mpr ⟨hr, by simp [referralSelectAllowed, hadmin]⟩

/-- Two sample referral rows owned by different referrers. -/
def rowU1 : ReferralRow :=
  ⟨"rid1", "u1", "Alice Client", "", "", "", Stage.referredConnection, BonusStatus.pending, "", 10⟩

/-- A second sample referral row. -/
def rowU2 : ReferralRow :=
  ⟨"rid2", "u2", "Bob Client", "", "", "", Stage.clientSigned, BonusStatus.paid, "", 5⟩

/-- A sample referrals table and roles table with one admin. -/
def sampleDb : List ReferralRow := [rowU1, rowU2]

/-- Roles table making a1 an admin. -/
def sampleRoles : List RoleRow := [⟨"a1", AppRole.admin⟩]

/-- Claim C5 witness: the theorem applied to the sample tables - the
row returned by the referrer u1 belongs to u1, the referrer listing is
sorted, and the admin a1 sees row rowU2 owned by u2. -/
theorem c5_referral_listing_scoped_witness :
    rowU1.user_id = "u1" ∧
    isSortedByCreatedDesc (fetchReferrals sampleDb sampleRoles "u1") = true ∧
    (rowU2 ∈ fetchAllReferrals sampleDb sampleRoles "a1" ↔ rowU2 ∈ sampleDb) :=
  ⟨(c5_referral_listing_scoped sampleDb sampleRoles "u1").1 rowU1 (by decide),
    (c5_referral_listing_scoped sampleDb sampleRoles "u1").2.1,
    ((c5_referral_listing_scoped sampleDb sampleRoles "a1").2.2 (by decide)).1 rowU2⟩

/-! ## Claim C6: the reset-password view gate -/

/-- What the ResetPassword view ends up rendering: a redirect to the
main page, the invalid-or-expired-link state, or the password form
(whose submit handler is the only path to updatePassword). -/
inductive ResetViewRender where
  | redirectHome
  | invalidLink
  | passwordForm
deriving DecidableEq, Repr

/-- The gate of the ResetPassword view (part of the reset view, lines
200-202): the same truthiness test over type, access_token and
refresh_token as the adapter's recovery test. -/
def isPasswordResetSession (p : UrlParams) : Bool :=
  (p.type == some "recovery") || truthyStr p.access_token || truthyStr p.refresh_token

/-- The ResetPassword component, from the current user and the URL
parameters: the early return of line 224 sends a signed-in user
without recovery indicators to the main page; otherwise the render
branch of lines 300-311 shows the invalid-link block without the gate
and the password form with it. -/
def renderResetPassword (user : Option String) (p : UrlParams) : ResetViewRender :=
  if user.isSome && !isPasswordResetSession p then ResetViewRender.redirectHome
  else if isPasswordResetSession p then ResetViewRender.passwordForm
  else ResetViewRender.invalidLink

/-- Whether the view can reach updatePassword: only through the form's
submit handler, so only when the form is rendered. -/
def resetViewCanInvokeUpdatePassword (user : Option String) (p : UrlParams) : Bool :=
  renderResetPassword user p == ResetViewRender.passwordForm

theorem truthyStr_isSome (o : Option String) (h : truthyStr o = true) : o.isSome = true := by
  cases o <;> simp_all [truthyStr]

/-- Claim C6, counterexample.  The claim says every URL without
recovery indicators shows the invalid-or-expired-link state.  But a
signed-in user who visits the reset view on such a URL hits the early
return of line 224 and is redirected to the main page instead: the
view never shows the invalid-link state there. -/
theorem c6_reset_view_gate_counterexample :
    specCarriesRecoveryIndicators ⟨none, none, none⟩ = false ∧
    renderResetPassword (some "u1") ⟨none, none, none⟩ = ResetViewRender.redirectHome ∧
    renderResetPassword (some "u1") ⟨none, none, none⟩ ≠ ResetViewRender.invalidLink := by
  refine ⟨rfl, rfl, by decide⟩

/-- Claim C6, amended: the reset-password view proceeds to the
password form only when the URL carries recovery indicators, and on
every URL without any of the indicators it never invokes
updatePassword - a signed-in user is redirected to the main page by
the early return, and otherwise the invalid-or-expired-link state is
shown. -/
theorem c6_reset_view_gate (user : Option String) (p : UrlParams) :
    (renderResetPassword user p = ResetViewRender.passwordForm →
      specCarriesRecoveryIndicators p = true) ∧
    (specCarriesRecoveryIndicators p = false →
      resetViewCanInvokeUpdatePassword user p = false ∧
      (user = none → renderResetPassword user p = ResetViewRender.invalidLink) ∧
      (∀ u, user = some u → renderResetPassword user p = ResetViewRender.redirectHome)) := by
  constructor
  · intro hform
    by_cases hc : isPasswordResetSession p = true
    · simp only [isPasswordResetSession, Bool.or_eq_true] at hc
      simp only [specCarriesRecoveryIndicators, Bool.or_eq_true]
      rcases hc with (h | h) | h
      · exact Or.inl (Or.inl h)
      · exact Or.inl (Or.inr (truthyStr_isSome _ h))
      · exact Or.inr (truthyStr_isSome _ h)
    · exfalso
      have hc2 : isPasswordResetSession p = false := by
        cases h : isPasswordResetSession p
        · rfl
        · exact absurd h hc
      rw [renderResetPassword, hc2] at hform
      cases user <;> simp at hform
  · intro hcar
    have hc : isPasswordResetSession p = false := by
      simp only [specCarriesRecoveryIndicators, Bool.or_eq_false_iff] at hcar
      obtain ⟨⟨ht, ha⟩, hrf⟩ := hcar
      have ha2 : p.access_token = none := Option.not_isSome_iff_eq_none.mp (by simp [ha])
      have hrf2 : p.refresh_token = none := Option.not_isSome_iff_eq_none.mp (by simp [hrf])
      simp [isPasswordResetSession, ht, ha2, hrf2, truthyStr]
    refine ⟨?_, ?_, ?_⟩
    · rw [resetViewCanInvokeUpdatePassword, renderResetPassword, hc]
      cases user <;> simp
    · intro hu
      subst hu
      rw [renderResetPassword, hc]
      simp
    · intro u hu
      subst hu
      rw [renderResetPassword, hc]
      simp

/-- Claim C6 witness: the amended theorem applied to a URL with none
of the parameters, once for a visitor who is not signed in and once
for the signed-in user u1. -/
theorem c6_reset_view_gate_witness :
    resetViewCanInvokeUpdatePassword none ⟨none, none, none⟩ = false ∧
    renderResetPassword none ⟨none, none, none⟩ = ResetViewRender.invalidLink ∧
    renderResetPassword (some "u1") ⟨none, none, none⟩ = ResetViewRender.redirectHome :=
  ⟨((c6_reset_view_gate none ⟨none, none, none⟩).2 (by decide)).1,
    ((c6_reset_view_gate none ⟨none, none, none⟩).2 (by decide)).2.1 rfl,
    ((c6_reset_view_gate (some "u1") ⟨none, none, none⟩).2 (by decide)).2.2 "u1" rfl⟩

/-! ## Claim C7: client-side rejection of an empty client name -/

/-- The add-referral form fields shared by both dashboards. -/
structure NewReferralForm where
  client_name : String
  client_email : String
  client_phone : String
  client_address : String
deriving DecidableEq, Repr

/-- The referrer dashboard form (ReferrerDashboard.tsx lines 201-246):
the client_name input carries the required attribute, so the browser
submits the form only when that value is non-empty; no other gate
exists. -/
def referrerFormSubmits (f : NewReferralForm) : Bool :=
  f.client_name != ""

/-- The insert request the referrer form issues when it submits. -/
structure InsertReferralRequest where
  user_id : String
  form : NewReferralForm
deriving DecidableEq, Repr

/-- The referrer dashboard submission: the insert request reaches the
store only when the required client_name is non-empty. -/
def referrerSubmitRequest (uid : String) (f : NewReferralForm) : Option InsertReferralRequest :=
  if referrerFormSubmits f then some ⟨uid, f⟩ else none

/-- The admin panel add-referral button (AdminPanel, lines 727-733 of
the concatenated source): disabled while a submission is in flight or
while the selected user id or the client name is empty. -/
def adminAddButtonDisabled (isAdding : Bool) (user_id client_name : String) : Bool :=
  isAdding || user_id == "" || client_name == ""

/-- Claim C7, confirmed: a referral-creation submission with an empty
client name is rejected client-side - the referrer form issues no
insert request, and the admin panel's add button is disabled - so no
insert reaches the store. -/
theorem c7_empty_client_name_rejected (uid : String) (f : NewReferralForm)
    (hname : f.client_name = "") (isAdding : Bool) (adminSelectedUser : String) :
    referrerSubmitRequest uid f = none ∧
    adminAddButtonDisabled isAdding adminSelectedUser f.client_name = true := by
  constructor
  · rw [referrerSubmitRequest, if_neg]
    simp [referrerFormSubmits, hname]
  · simp [adminAddButtonDisabled, hname]

/-- Claim C7 witness: the theorem applied to a concrete form whose
client name is empty. -/
theorem c7_empty_client_name_rejected_witness :
    referrerSubmitRequest "u1" ⟨"", "e@x.y", "555", "addr"⟩ = none ∧
    adminAddButtonDisabled false "u2" (NewReferralForm.client_name ⟨"", "e@x.y", "555", "addr"⟩)
      = true :=
  c7_empty_client_name_rejected "u1" ⟨"", "e@x.y", "555", "addr"⟩ rfl false "u2"

/-! ## Claim C9: mutations re-fetch instead of patching local state -/

/-- The SELECT row-level policies on profiles: owners see their own
row; admins see all rows. -/
def profileSelectAllowed (roles : List RoleRow) (caller : String) (row : ProfileRow) : Bool :=
  (caller == row.user_id) || hasRole roles caller AppRole.admin

/-- fetchUserProfile of the referrer dashboard: select from profiles,
narrowed by the row-level policies, filtered on user_id = caller id,
with .single() semantics - some row exactly when one row matches. -/
def fetchUserProfile (pdb : List ProfileRow) (roles : List RoleRow)
    (caller : String) : Option ProfileRow :=
  match (pdb.filter (profileSelectAllowed roles caller)).filter (fun p => p.user_id == caller) with
  | [p] => some p
  | _ => none

/-- The row a referrer submission inserts: the form fields, the caller
as owner, store-generated id and timestamp, schema defaults for stage,
bonus_status and notes. -/
def newReferralRow (uid : String) (f : NewReferralForm) (rid : String) (now : Nat) : ReferralRow :=
  { id := rid, user_id := uid, client_name := f.client_name, client_email := f.client_email
    client_phone := f.client_phone, client_address := f.client_address
    stage := Stage.referredConnection, bonus_status := BonusStatus.pending
    notes := "", created_at := now }

/-- The referrer dashboard's local component state. -/
structure DashboardState where
  referrals : List ReferralRow
  userProfile : Option ProfileRow
deriving DecidableEq, Repr

/-- Result of one dashboard mutation handler: the referrals table
afterwards, the component state afterwards, and the toasts shown. -/
structure AddReferralStep where
  db : List ReferralRow
  state : DashboardState
  toasts : List Toast
deriving DecidableEq, Repr

/-- handleAddReferral of ReferrerDashboard.tsx lines 66-103: insert
the new row; on success show a success toast and re-run fetchReferrals
against the store; on a store error show an error toast and leave the
local list untouched. -/
def handleAddReferral (db : List ReferralRow) (roles : List RoleRow) (uid : String)
    (f : NewReferralForm) (rid : String) (now : Nat) (st : DashboardState) : AddReferralStep :=
  match insertReferral db roles uid (newReferralRow uid f rid now) with
  | some db1 =>
      { db := db1
        state := { st with referrals := fetchReferrals db1 roles uid }
        toasts := [⟨"Success", "Referral added successfully", false⟩] }
  | none =>
      { db := db
        state := st
        toasts := [⟨"Error", "Failed to add referral", true⟩] }

/-- Result of the save-payment-details handler: the profiles table
afterwards, the component state afterwards, and the toasts shown. -/
structure SavePaymentStep where
  pdb : List ProfileRow
  state : DashboardState
  toasts : List Toast
deriving DecidableEq, Repr

/-- The UPDATE row-level policies on profiles applied to the
payment-details update: rows failing the policy are silently left
unchanged. -/
def updateProfilePayment (pdb : List ProfileRow) (roles : List RoleRow) (caller : String)
    (pid : String) (method details : String) : List ProfileRow :=
  pdb.map (fun p =>
    if (p.id == pid) && ((caller == p.user_id) || hasRole roles caller AppRole.admin) then
      { p with payment_method := some method, payment_details := some details }
    else p)

/-- handleSavePaymentDetails of the payment-details form (lines
133-165 of the second referrer dashboard): return at once when no
payment method is chosen or the loaded profile has no id; otherwise
update the profile row and re-run fetchUserProfile against the
store. -/
def handleSavePaymentDetails (pdb : List ProfileRow) (roles : List RoleRow) (uid : String)
    (method details : String) (st : DashboardState) : SavePaymentStep :=
  match st.userProfile with
  | none => { pdb := pdb, state := st, toasts := [] }
  | some prof =>
      if method == "" || prof.id == "" then
        { pdb := pdb, state := st, toasts := [] }
      else
        { pdb := updateProfilePayment pdb roles uid prof.id method details
          state := { st with
            userProfile := fetchUserProfile
              (updateProfilePayment pdb roles uid prof.id method details) roles uid }
          toasts := [⟨"Success", "Payment details saved successfully", false⟩] }

/-- Claim C9, confirmed: after each mutation the dashboard state is
the result of a fresh full query against the (updated) store - the
referral list after an add is exactly fetchReferrals over the new
table, identical whatever the previous local list was, and the profile
after a save is exactly fetchUserProfile over the new table. -/
theorem c9_mutations_refetch (db : List ReferralRow) (pdb : List ProfileRow)
    (roles : List RoleRow) (uid rid : String) (f : NewReferralForm) (now : Nat)
    (st st2 : DashboardState) (prof : ProfileRow) (method details : String)
    (hprof : st.userProfile = some prof) (hm : method ≠ "") (hpid : prof.id ≠ "") :
    (handleAddReferral db roles uid f rid now st).state.referrals
      = fetchReferrals (handleAddReferral db roles uid f rid now st).db roles uid ∧
    (handleAddReferral db roles uid f rid now st).state.referrals
      = (handleAddReferral db roles uid f rid now st2).state.referrals ∧
    (handleSavePaymentDetails pdb roles uid method details st).state.userProfile
      = fetchUserProfile (handleSavePaymentDetails pdb roles uid method details st).pdb
          roles uid := by
  refine ⟨?_, ?_, ?_⟩
  · simp [handleAddReferral, insertReferral, newReferralRow]
  · simp [handleAddReferral, insertReferral, newReferralRow]
  · rw [handleSavePaymentDetails, hprof]
    simp only []
    rw [if_neg]
    simp [hm, hpid]

/-- A sample profile row for u1. -/
def profU1 : ProfileRow := ⟨"pid1", "u1", "Referrer One", none, none⟩

/-- A sample dashboard state for u1. -/
def sampleState : DashboardState := ⟨[rowU1], some profU1⟩

/-- Claim C9 witness: the theorem applied to the sample tables, a
concrete form, and the zelle payment method. -/
theorem c9_mutations_refetch_witness :
    sampleState.userProfile = some profU1 ∧
    ((handleAddReferral sampleDb sampleRoles "u1" ⟨"Carol", "", "", ""⟩ "rid3" 20
        sampleState).state.referrals
      = fetchReferrals (handleAddReferral sampleDb sampleRoles "u1" ⟨"Carol", "", "", ""⟩
          "rid3" 20 sampleState).db sampleRoles "u1" ∧
      (handleAddReferral sampleDb sampleRoles "u1" ⟨"Carol", "", "", ""⟩ "rid3" 20
          sampleState).state.referrals
        = (handleAddReferral sampleDb sampleRoles "u1" ⟨"Carol", "", "", ""⟩ "rid3" 20
            ⟨[], none⟩).state.referrals ∧
      (handleSavePaymentDetails [profU1] sampleRoles "u1" "zelle" "e@x.y"
          sampleState).state.userProfile
        = fetchUserProfile (handleSavePaymentDetails [profU1] sampleRoles "u1" "zelle" "e@x.y"
            sampleState).pdb sampleRoles "u1") :=
  ⟨rfl,
    c9_mutations_refetch sampleDb [profU1] sampleRoles "u1" "rid3" ⟨"Carol", "", "", ""⟩ 20
      sampleState ⟨[], none⟩ profU1 "zelle" "e@x.y" rfl (by decide) (by decide)⟩

end BuddyReward
